import Mathlib

/-!
# Verification of the watershed paint-by-numbers pipeline

Shallow embedding of the core segmentation pipeline of the
watershed paint-by-numbers generator:

* `createMarkers` / marker-to-color map construction
  (`WatershedProcessor.createMarkers`, app file lines 199–271),
* `applyWatershed` (lines 294–353),
* `extractRegions` (lines 363–446),
* the color quantizer's palette construction (`ColorQuantizer.quantize`,
  `js/colorQuantizer.js` lines 113–149),
* the SVG contour-to-path conversion (`SVGGenerator.contourToPathData`,
  `js/svgGenerator.js` lines 108–147).

Calls into OpenCV.js (`cv.erode`, `cv.connectedComponents`,
`cv.findContours`, `cv.moments`, `cv.contourArea`, `cv.watershed`,
`cv.kmeans`, colorspace conversion) are external library calls; they are
modelled as explicit function parameters (`CVLib`, `QuantLib`), used at
exactly the call sites where the source invokes them.  JavaScript numbers
are modelled as `Int`/`Nat` where the source only manipulates integers and
as `ℚ` where fractional arithmetic occurs (the fractional values reached
here are exact in `ℚ`, see the comments at `jsRound`/`toFixed2`).
-/

namespace PBN

/-- A 2-D integer point, as the `{x, y}` objects used for contour points. -/
structure Pt where
  x : Int
  y : Int
deriving DecidableEq, Repr

/-- A contour is an ordered list of integer points. -/
abbrev Contour := List Pt

/-- A single-channel integer matrix (`cv.Mat` of type `CV_32S` or a 0/255
`CV_8UC1` mask), stored row-major.  `get i` is element at linear index
`i = y * width + x`, matching the loops `for y … for x …` in the source. -/
structure Grid where
  width : Nat
  height : Nat
  data : List Int
deriving DecidableEq, Repr

/-- Element access at linear index (out-of-range reads 0, as a zero-filled
`cv.Mat`). -/
def Grid.get (g : Grid) (i : Nat) : Int :=
  g.data.getD i 0

/-- The pixel values of the grid in row-major scan order (the order of the
`for y … for x …` loops in the source). -/
def Grid.pixels (g : Grid) : List Int :=
  (List.range (g.height * g.width)).map g.get

/-- `cv.Mat.zeros(height, width, …)`. -/
def Grid.zeros (height width : Nat) : Grid :=
  ⟨width, height, List.replicate (height * width) 0⟩

/-- An RGB color sample (8-bit channels). -/
structure RGBv where
  r : Nat
  g : Nat
  b : Nat
deriving DecidableEq, Repr

/-- A 3-channel RGB image (`cv.Mat` of type `CV_8UC3`), row-major. -/
structure ImageRGB where
  width : Nat
  height : Nat
  pix : List RGBv
deriving DecidableEq, Repr

/-- Result of `cv.connectedComponents`: the number of components
(including the background component 0) and the component-label grid. -/
structure CC where
  num : Nat
  labels : Grid
deriving DecidableEq, Repr

/-- Result of `cv.moments`. -/
structure Moments where
  m00 : ℚ
  m10 : ℚ
  m01 : ℚ
deriving DecidableEq, Repr

/-- OpenCV constant `cv.MORPH_ELLIPSE` (value 2). -/
def MORPH_ELLIPSE : Nat := 2

/-- The OpenCV.js operations the watershed processor calls.  A kernel is
represented by the pair (shape constant, side length) that the source
passes to `cv.getStructuringElement`. -/
structure CVLib where
  /-- `cv.erode(mask, mask, kernel)` with `kernel = getStructuringElement
  (shape, Size(k, k))`; argument is `(shape, k)`. -/
  erode : Grid → Nat × Nat → Grid
  /-- `cv.connectedComponents(mask, out, 8, cv.CV_32S)`: 8-connectivity. -/
  connectedComponents8 : Grid → CC
  /-- `cv.findContours(mask, …, cv.RETR_EXTERNAL, cv.CHAIN_APPROX_SIMPLE)`. -/
  findContours : Grid → List Contour
  /-- `cv.moments(contour)`. -/
  moments : Contour → Moments
  /-- `cv.contourArea(contour)`. -/
  contourArea : Contour → ℚ
  /-- `cv.watershed(rgb, markers)` — returns the in-place-modified marker
  matrix. -/
  watershed : ImageRGB → Grid → Grid

/-- The erosion radius table of `createMarkers` (`erodeSizes` object with
the `|| 3` default for unknown keys). -/
def erodeSizes (complexity : String) : Nat :=
  if complexity = "low" then 5
  else if complexity = "medium" then 3
  else if complexity = "high" then 2
  else if complexity = "extreme" then 1
  else 3

/-- The per-color binary mask of `createMarkers`: 255 where the K-means
label of the pixel equals `colorIdx`, 0 elsewhere
(`labels.intAt(pixelIdx, 0) === colorIdx`). -/
def colorMask (labels : List Int) (width height : Nat) (colorIdx : Nat) : Grid :=
  ⟨width, height,
    (List.range (height * width)).map fun i =>
      if labels.getD i 0 = (colorIdx : Int) then 255 else 0⟩

/-- The mutable loop state of `createMarkers`: the marker matrix, the
`markerToColor` association (kept as insertion-ordered key/value pairs,
keys are marker labels, values 1-based palette indices) and `nextLabel`. -/
structure MarkerState where
  markers : Grid
  markerToColor : List (Int × Int)
  nextLabel : Int
deriving DecidableEq, Repr

/-- One iteration of the `for (colorIdx …)` loop of `createMarkers`:
build the color mask, erode it with the elliptical kernel (when
`erodeSize > 0`), run 8-connected component labeling, record a globally
unique marker label for each component (mapping it to the 1-based palette
index `colorIdx + 1`), write the labels into the marker matrix, and
advance `nextLabel` by `numComponents - 1`. -/
def createMarkersStep (cv : CVLib) (labels : List Int) (width height erodeSize : Nat)
    (st : MarkerState) (colorIdx : Nat) : MarkerState :=
  let mask0 := colorMask labels width height colorIdx
  let mask := if 0 < erodeSize then
      cv.erode mask0 (MORPH_ELLIPSE, erodeSize * 2 + 1)
    else mask0
  let cc := cv.connectedComponents8 mask
  let newPairs := (List.range' 1 (cc.num - 1)).map fun (comp : Nat) =>
    (st.nextLabel + (comp : Int) - 1, ((colorIdx : Int) + 1))
  let newMarkers : Grid :=
    ⟨width, height,
      (List.range (height * width)).map fun i =>
        let component := cc.labels.get i
        if 0 < component then st.nextLabel + component - 1 else st.markers.get i⟩
  { markers := newMarkers
    markerToColor := st.markerToColor ++ newPairs
    nextLabel := st.nextLabel + (cc.num : Int) - 1 }

/-- `WatershedProcessor.createMarkers` (lines 199–271): returns the marker
matrix and the `markerToColor` map it builds. -/
def createMarkers (cv : CVLib) (labels : List Int) (width height numColors : Nat)
    (complexity : String) : Grid × List (Int × Int) :=
  let erodeSize := erodeSizes complexity
  let final := (List.range numColors).foldl
    (createMarkersStep cv labels width height erodeSize)
    ⟨Grid.zeros height width, [], 1⟩
  (final.markers, final.markerToColor)

/-- The marker state after processing the first `k` colors (used to speak
about individual iterations of the color loop). -/
def markerStateAfter (cv : CVLib) (labels : List Int) (width height : Nat)
    (complexity : String) (k : Nat) : MarkerState :=
  (List.range k).foldl
    (createMarkersStep cv labels width height (erodeSizes complexity))
    ⟨Grid.zeros height width, [], 1⟩

/-- The instance fields of the `WatershedProcessor` object that persist
across method calls.  `createMarkers` assigns `this._markerToColor`
(line 268) and `extractRegions` reads it back (line 367); before the first
assignment the field is `undefined` (here `none`). -/
structure ProcessorState where
  _markerToColor : Option (List (Int × Int))
deriving DecidableEq, Repr

/-- `createMarkers` as it acts on the processor object: it returns the
marker matrix and stores the map on the instance
(`this._markerToColor = markerToColor`). -/
def createMarkersS (cv : CVLib) (_st : ProcessorState) (labels : List Int)
    (width height numColors : Nat) (complexity : String) : Grid × ProcessorState :=
  let r := createMarkers cv labels width height numColors complexity
  (r.1, ⟨some r.2⟩)

/-! ## Utilities (`js/utils.js`) -/

/-- `Math.round` on the exact rational value of a JavaScript number
(rounds half toward +∞).  Every quotient rounded in the embedded code is
either exact or far enough from a tie that double rounding agrees with
exact rational rounding, so this is faithful. -/
def jsRound (q : ℚ) : Int := ⌊q + 1/2⌋

/-- `x.toString(16)` padded to two digits, as in `Utils.rgbToHex`. -/
def toHexByte (x : Nat) : String :=
  let s := String.mk (Nat.toDigits 16 x)
  if s.length = 1 then "0" ++ s else s

/-- `Utils.rgbToHex`. -/
def rgbToHex (r g b : Nat) : String :=
  "#" ++ toHexByte r ++ toHexByte g ++ toHexByte b

/-- `Utils.getColorName`: coarse name from brightness and dominant
channel.  `(r + g + b) / 3` is compared exactly in `ℚ`. -/
def getColorName (r g b : Nat) : String :=
  let mx := max r (max g b)
  let mn := min r (min g b)
  let brightness : ℚ := ((r : ℚ) + g + b) / 3
  if mx - mn < 30 then
    if brightness < 50 then "Black"
    else if brightness < 100 then "Dark Gray"
    else if brightness < 180 then "Gray"
    else if brightness < 230 then "Light Gray"
    else "White"
  else if r > g ∧ r > b then
    if g > 100 ∧ b < 100 then "Yellow"
    else if g < 100 ∧ b > 100 then "Purple"
    else if r > 180 then "Red" else "Dark Red"
  else if g > r ∧ g > b then
    if b > 100 ∧ r < 100 then "Cyan"
    else if r > 100 ∧ b < 100 then "Yellow"
    else if g > 180 then "Green" else "Dark Green"
  else
    if r > 100 ∧ g < 100 then "Purple"
    else if g > 100 ∧ r < 100 then "Cyan"
    else if b > 180 then "Blue" else "Dark Blue"

/-- A palette entry as built by `ColorQuantizer.quantize`
(`js/colorQuantizer.js` lines 141–146). -/
structure PaletteEntry where
  id : Nat
  rgb : RGBv
  hex : String
  name : String
deriving DecidableEq, Repr

/-! ## `WatershedProcessor.extractRegions` (lines 363–446) -/

/-- A region record as pushed by `extractRegions` (lines 427–434). -/
structure Region where
  id : Int
  contour : Contour
  centroidX : Int
  centroidY : Int
  area : ℚ
  colorId : Int
  color : Option PaletteEntry
deriving DecidableEq, Repr

/-- Lookup in the `markerToColor` object (keys are unique, so first match
agrees with JavaScript property lookup). -/
def lookupMap (m : List (Int × Int)) (k : Int) : Option Int :=
  (m.find? fun p => p.1 = k).map Prod.snd

/-- The `uniqueLabels` set of `extractRegions` (lines 370–378): positive
labels in first-insertion scan order, as a JavaScript `Set`. -/
def uniqueLabels (wm : Grid) : List Int :=
  wm.pixels.foldl
    (fun acc v => if 0 < v then (if v ∈ acc then acc else acc ++ [v]) else acc)
    []

/-- Pixel count of one label (`pixelCount` accumulated in the mask loop,
lines 386–395). -/
def regionPixelCount (wm : Grid) (label : Int) : Nat :=
  (wm.pixels.filter (· = label)).length

/-- The per-label binary mask built in the same loop. -/
def regionMask (wm : Grid) (label : Int) : Grid :=
  ⟨wm.width, wm.height,
    (List.range (wm.height * wm.width)).map fun i =>
      if wm.get i = label then 255 else 0⟩

/-- The body of the `uniqueLabels.forEach` callback (lines 383–442):
build the mask and pixel count, drop the label if the count is below
`minRegionSize`, otherwise trace contours and (when a contour was found)
build the region record, resolving `colorId` by
`markerToColor[label] || 1` followed by the clamp to `[1, palette.length]`. -/
def buildRegion (cv : CVLib) (markerToColor : List (Int × Int))
    (palette : List PaletteEntry) (wm : Grid) (minRegionSize : Nat)
    (label : Int) : Option Region :=
  let pixelCount := regionPixelCount wm label
  let mask := regionMask wm label
  if pixelCount < minRegionSize then none
  else
    match cv.findContours mask with
    | [] => none
    | contour :: _ =>
      let c0 : Int :=
        match lookupMap markerToColor label with
        | some v => if v = 0 then 1 else v    -- JavaScript `|| 1` (0 and undefined are falsy)
        | none => 1
      let colorId : Int := if c0 < 1 ∨ c0 > (palette.length : Int) then 1 else c0
      let m := cv.moments contour
      some { id := label
             contour := contour
             centroidX := jsRound (m.m10 / m.m00)
             centroidY := jsRound (m.m01 / m.m00)
             area := cv.contourArea contour
             colorId := colorId
             color := palette.get? (colorId - 1).toNat }

/-- `extractRegions` given the marker-to-color map it reads from the
instance: iterate the unique labels, appending each surviving region. -/
def extractRegions (cv : CVLib) (markerToColor : List (Int × Int)) (wm : Grid)
    (palette : List PaletteEntry) (minRegionSize : Nat) : List Region :=
  (uniqueLabels wm).foldl
    (fun regions label =>
      match buildRegion cv markerToColor palette wm minRegionSize label with
      | none => regions
      | some r => regions ++ [r])
    []

/-- `extractRegions` as it acts on the processor object: the map comes
from the instance field (`this._markerToColor || {}`, line 367). -/
def extractRegionsS (cv : CVLib) (st : ProcessorState) (wm : Grid)
    (palette : List PaletteEntry) (minRegionSize : Nat) : List Region :=
  extractRegions cv (st._markerToColor.getD []) wm palette minRegionSize

/-- `WatershedProcessor.applyWatershed` (lines 294–353): the quantized
image is already 3-channel and the markers already `CV_32S`, so the body
reduces to the `cv.watershed` call on (a clone of) the image and the
marker matrix, returning the modified markers. -/
def applyWatershed (cv : CVLib) (quantized : ImageRGB) (markers : Grid) : Grid :=
  cv.watershed quantized markers

/-- Number of seed pixels (pixels with a positive marker label). -/
def seedCount (markers : Grid) : Nat :=
  (markers.pixels.filter (0 < ·)).length

/-- Steps 3–5 of `WatershedProcessor.process` (lines 60–102): create the
markers (storing the map on the instance), apply watershed to the marker
matrix, and extract the regions using the instance's map. -/
def runPipelineRegions (cv : CVLib) (labels : List Int) (width height numColors : Nat)
    (complexity : String) (quantized : ImageRGB) (palette : List PaletteEntry)
    (minRegionSize : Nat) : List Region :=
  let r := createMarkersS cv ⟨none⟩ labels width height numColors complexity
  let wm := applyWatershed cv quantized r.1
  extractRegionsS cv r.2 wm palette minRegionSize

/-- Pipeline errors the `process` wrapper can throw.  In this embedding
the modelled stages are total, so these are never produced; the type
records the error channel of the source's `try`/`catch` wrappers. -/
inductive ProcErr
  | markerCreationFailed
  | watershedFailed
deriving DecidableEq, Repr

/-- Steps 3–4 of `process` as an explicit fallible stage: marker creation
followed by watershed.  The source performs no check between the two
stages — whatever marker matrix `createMarkers` produced is passed to
`applyWatershed`. -/
def processMarkersWatershed (cv : CVLib) (st : ProcessorState) (labels : List Int)
    (quantized : ImageRGB) (width height numColors : Nat) (complexity : String) :
    Except ProcErr (Grid × ProcessorState) :=
  let r := createMarkersS cv st labels width height numColors complexity
  Except.ok (applyWatershed cv quantized r.1, r.2)

/-- The outcome of `App.generate` after processing (lines 845–850): an
empty region list produces a warning toast and an early return (a soft
outcome), otherwise rendering proceeds. -/
inductive GenerateOutcome
  | noRegionsWarning
  | rendered
deriving DecidableEq, Repr

/-- The `result.regions.length === 0` branch of `App.generate`. -/
def generateHandleRegions (regions : List Region) : GenerateOutcome :=
  if regions.length = 0 then .noRegionsWarning else .rendered

/-! ## `ColorQuantizer.quantize` (`js/colorQuantizer.js`) -/

/-- An RGBA color sample. -/
structure RGBAv where
  r : Nat
  g : Nat
  b : Nat
  a : Nat
deriving DecidableEq, Repr

/-- The `ImageData` input (canvas pixel data is always 4-channel). -/
structure ImageRGBA where
  width : Nat
  height : Nat
  pix : List RGBAv
deriving DecidableEq, Repr

/-- `cv.cvtColor(src, rgb, cv.COLOR_RGBA2RGB)`: drop the alpha channel. -/
def rgba2rgb (img : ImageRGBA) : ImageRGB :=
  ⟨img.width, img.height, img.pix.map fun p => ⟨p.r, p.g, p.b⟩⟩

/-- Per-cluster accumulator `{ r, g, b, count }` of the palette loop. -/
structure ColorSum where
  r : Nat
  g : Nat
  b : Nat
  count : Nat
deriving DecidableEq, Repr

/-- The accumulation pass of lines 116–130: one scan over all pixels,
adding the pixel's original RGB to the accumulator of its K-means label
(guard `label >= 0 && label < numColors`).  The `colorSums` array is
modelled as a function from cluster index to accumulator. -/
def colorSumsFold (labels : List Int) (img : ImageRGB) (numColors : Nat) :
    Nat → ColorSum :=
  (List.range (img.height * img.width)).foldl
    (fun sums i =>
      let label := labels.getD i 0
      if 0 ≤ label ∧ label < (numColors : Int) then
        let p := img.pix.getD i ⟨0, 0, 0⟩
        fun j => if j = label.toNat then
            ⟨(sums j).r + p.r, (sums j).g + p.g, (sums j).b + p.b, (sums j).count + 1⟩
          else sums j
      else sums)
    (fun _ => ⟨0, 0, 0, 0⟩)

/-- The palette-building loop of lines 133–149: for each cluster the
averaged original RGB (rounded per channel), or the gray fallback
`{128,128,128}` for an empty cluster, together with id, hex and name. -/
def quantizePalette (labels : List Int) (img : ImageRGB) (numColors : Nat) :
    List PaletteEntry :=
  (List.range numColors).map fun i =>
    let sum := colorSumsFold labels img numColors i
    let avgRgb : RGBv :=
      if 0 < sum.count then
        ⟨(jsRound ((sum.r : ℚ) / (sum.count : ℚ))).toNat,
         (jsRound ((sum.g : ℚ) / (sum.count : ℚ))).toNat,
         (jsRound ((sum.b : ℚ) / (sum.count : ℚ))).toNat⟩
      else ⟨128, 128, 128⟩
    { id := i + 1
      rgb := avgRgb
      hex := rgbToHex avgRgb.r avgRgb.g avgRgb.b
      name := getColorName avgRgb.r avgRgb.g avgRgb.b }

/-- The quantized image of lines 152–161: each pixel painted with its
cluster's palette color (K-means labels always lie in `[0, numColors)`,
so the `getD` default is never read on pipeline inputs). -/
def buildQuantized (labels : List Int) (palette : List PaletteEntry)
    (width height : Nat) : ImageRGB :=
  ⟨width, height,
    (List.range (height * width)).map fun i =>
      (palette.getD (labels.getD i 0).toNat
        ⟨0, ⟨0, 0, 0⟩, "", ""⟩).rgb⟩

/-- The external operations `quantize` calls: the RGB→Lab conversion
(whose per-pixel result rows are the K-means sample matrix) and
`cv.kmeans`, which either throws or yields the per-pixel cluster labels. -/
structure QuantLib where
  rgb2lab : ImageRGB → List (Nat × Nat × Nat)
  kmeans : List (Nat × Nat × Nat) → Nat → Except Unit (List Int)

/-- The errors `quantize` can throw.  These are the `throw new Error(…)`
sites of the source; there is no parameter-validation error of any kind. -/
inductive QuantError
  | opencvNotLoaded
  | kmeansFailed
deriving DecidableEq, Repr

/-- The successful result of `quantize`. -/
structure QuantResult where
  quantized : ImageRGB
  palette : List PaletteEntry
  labels : List Int
deriving DecidableEq, Repr

/-- `ColorQuantizer.quantize` (`js/colorQuantizer.js` lines 12–172):
check OpenCV is loaded, convert to RGB then Lab, run K-means (wrapping a
thrown error as the generic clustering failure), build the palette from
averaged original RGB and the quantized image.  No validation of
`numColors` or of the image size is performed anywhere. -/
def quantize (cvLoaded : Bool) (lib : QuantLib) (img : ImageRGBA)
    (numColors : Nat) : Except QuantError QuantResult :=
  if ¬ cvLoaded then Except.error .opencvNotLoaded
  else
    let rgb := rgba2rgb img
    let samples := lib.rgb2lab rgb
    match lib.kmeans samples numColors with
    | Except.error _ => Except.error .kmeansFailed
    | Except.ok labels =>
      let palette := quantizePalette labels rgb numColors
      let quantized := buildQuantized labels palette rgb.width rgb.height
      Except.ok ⟨quantized, palette, labels⟩

/-! ## Spec-side definitions

The following definitions follow the specification's words (not the
source); they exist only to compare the code's behaviour against the
spec's error-handling and smoothing descriptions. -/

/-- The error taxonomy of spec §7 relevant to the checks below. -/
inductive SpecPipelineErr
  | noMarkersError
  | invalidParameter
deriving DecidableEq, Repr

/-- Spec §4.3 / §7, in the spec's words: "zero seeds → NoMarkersError
(fatal, aborts this image's pipeline run)" — a gate between marker
construction and watershed. -/
def specSeedGate (markers : Grid) : Except SpecPipelineErr Grid :=
  if seedCount markers = 0 then Except.error .noMarkersError
  else Except.ok markers

/-- Spec §4.1 / §7, in the spec's words: "K ≤ 0 or empty image →
InvalidParameter (fatal)" — a validation the quantizer would perform
before clustering. -/
def specQuantGate (img : ImageRGBA) (numColors : Nat) :
    Except SpecPipelineErr Unit :=
  if numColors = 0 ∨ img.width * img.height = 0 then
    Except.error .invalidParameter
  else Except.ok ()

/-! ## `SVGGenerator.contourToPathData` (`js/svgGenerator.js` lines 108–147) -/

/-- `v.toFixed(2)` for `v ≥ 0`.  The control-point values reaching
`toFixed` are of the form `m + d/6` with `m, d` integers, whose scaled
value `100 v` is never half-way between two integers, so rounding the
exact rational to the nearest (ties up, ECMA's "larger n") agrees with
the double-precision result. -/
def toFixed2Nonneg (q : ℚ) : String :=
  let n : Int := ⌊q * 100 + 1/2⌋
  let frac := (n % 100).toNat
  s!"{n / 100}." ++ (if frac < 10 then "0" ++ toString frac else toString frac)

/-- `v.toFixed(2)` (negative values format as `"-" ++ (-v).toFixed(2)`). -/
def toFixed2 (q : ℚ) : String :=
  if q < 0 then "-" ++ toFixed2Nonneg (-q) else toFixed2Nonneg q

/-- `SVGGenerator.contourToPathData`: empty contour → empty string;
fewer than 3 points → `M`/`L` line path closed with `Z`; otherwise a
closed Catmull-Rom spline (tension `alpha = 0.5`, wrap-around indexing
`(i + n) % n`) emitted as one cubic Bézier `C` command per segment,
closed with `Z`. -/
def contourToPathData (contour : Contour) : String :=
  if contour.length = 0 then ""
  else if contour.length < 3 then
    let d0 := s!"M {(contour.getD 0 ⟨0, 0⟩).x} {(contour.getD 0 ⟨0, 0⟩).y}"
    ((List.range' 1 (contour.length - 1)).foldl
      (fun d i => d ++ s!" L {(contour.getD i ⟨0, 0⟩).x} {(contour.getD i ⟨0, 0⟩).y}")
      d0) ++ " Z"
  else
    let n := contour.length
    let alpha : ℚ := 1/2   -- 0.5
    let pt : Int → Pt := fun i => contour.getD ((i + n) % n).toNat ⟨0, 0⟩
    let seg : Nat → String := fun i =>
      let p0 := pt ((i : Int) - 1)
      let p1 := pt (i : Int)
      let p2 := pt ((i : Int) + 1)
      let p3 := pt ((i : Int) + 2)
      let cp1x : ℚ := (p1.x : ℚ) + ((p2.x : ℚ) - (p0.x : ℚ)) * alpha / 3
      let cp1y : ℚ := (p1.y : ℚ) + ((p2.y : ℚ) - (p0.y : ℚ)) * alpha / 3
      let cp2x : ℚ := (p2.x : ℚ) - ((p3.x : ℚ) - (p1.x : ℚ)) * alpha / 3
      let cp2y : ℚ := (p2.y : ℚ) - ((p3.y : ℚ) - (p1.y : ℚ)) * alpha / 3
      s!" C {toFixed2 cp1x} {toFixed2 cp1y}, {toFixed2 cp2x} {toFixed2 cp2y}, {p2.x} {p2.y}"
    ((List.range n).foldl (fun d i => d ++ seg i)
      s!"M {(pt 0).x} {(pt 0).y}") ++ " Z"

/-- Spec-side (§4.5 words): "Degenerate polygons (<3 points) fall back to
a straight-edged closed path" — a move to the first point, a line to each
further point, closed. -/
def straightClosedPath : Contour → String
  | [] => ""
  | p :: ps =>
    s!"M {p.x} {p.y}" ++ String.join (ps.map fun q => s!" L {q.x} {q.y}") ++ " Z"

/-- Spec-side (§4.5 words): the simplified closed polygon treated as a
closed Catmull-Rom spline with wrap-around neighbor indexing and tension
α = 0.5, each segment `(p0, p1, p2, p3)` converted to a cubic Bézier with
control points `p1 + (p2 − p0)·α/3` and `p2 − (p3 − p1)·α/3`. -/
def closedCatmullRomPath (contour : Contour) : String :=
  let n := contour.length
  let v : Nat → Pt := fun k => contour.getD (k % n) ⟨0, 0⟩
  let seg : Nat → String := fun i =>
    let p0 := v (i + n - 1)
    let p1 := v i
    let p2 := v (i + 1)
    let p3 := v (i + 2)
    let c1x : ℚ := (p1.x : ℚ) + ((p2.x : ℚ) - (p0.x : ℚ)) * (1/2) / 3
    let c1y : ℚ := (p1.y : ℚ) + ((p2.y : ℚ) - (p0.y : ℚ)) * (1/2) / 3
    let c2x : ℚ := (p2.x : ℚ) - ((p3.x : ℚ) - (p1.x : ℚ)) * (1/2) / 3
    let c2y : ℚ := (p2.y : ℚ) - ((p3.y : ℚ) - (p1.y : ℚ)) * (1/2) / 3
    s!" C {toFixed2 c1x} {toFixed2 c1y}, {toFixed2 c2x} {toFixed2 c2y}, {p2.x} {p2.y}"
  s!"M {(v 0).x} {(v 0).y}" ++ String.join ((List.range n).map seg) ++ " Z"

/-! ## Concrete instantiations of the external libraries

Used to evaluate the theorems below on closed inputs. -/

/-- A simple concrete `CVLib`: erosion is the identity, component
labeling finds one component covering the whole foreground (or none for
an empty mask), contour tracing returns a single one-point contour for a
nonempty mask, and watershed returns the marker matrix unchanged. -/
def cvI : CVLib where
  erode := fun m _ => m
  connectedComponents8 := fun m =>
    if m.pixels.all (· = 0) then ⟨1, Grid.zeros m.height m.width⟩
    else ⟨2, ⟨m.width, m.height,
      (List.range (m.height * m.width)).map fun i => if 0 < m.get i then 1 else 0⟩⟩
  findContours := fun m => if m.pixels.all (· = 0) then [] else [[⟨0, 0⟩]]
  moments := fun _ => ⟨1, 0, 0⟩
  contourArea := fun _ => 0
  watershed := fun _ m => m

/-- A concrete `CVLib` whose component labeling never finds a foreground
component (as erosion of thin features can produce). -/
def cvZero : CVLib where
  erode := fun m _ => m
  connectedComponents8 := fun m => ⟨1, Grid.zeros m.height m.width⟩
  findContours := fun _ => []
  moments := fun _ => ⟨1, 0, 0⟩
  contourArea := fun _ => 0
  watershed := fun _ m => m

/-- A concrete `QuantLib` whose K-means call succeeds with the given
label vector. -/
def quantLibOk (labs : List Int) : QuantLib where
  rgb2lab := fun img => img.pix.map fun p => (p.r, p.g, p.b)
  kmeans := fun _ _ => Except.ok labs

/-- A concrete `QuantLib` whose K-means call throws. -/
def quantLibErr : QuantLib where
  rgb2lab := fun img => img.pix.map fun p => (p.r, p.g, p.b)
  kmeans := fun _ _ => Except.error ()

/-! ## Helper lemmas -/

theorem toNat_intCast_mod (a b : Nat) : (((a : Int) % (b : Int)).toNat) = a % b := by
  rw [← Int.natCast_mod]
  exact Int.toNat_natCast _

theorem foldl_strAppend_shift (l : List String) (x y : String) :
    l.foldl (· ++ ·) (x ++ y) = x ++ l.foldl (· ++ ·) y := by
  induction l generalizing y with
  | nil => simp
  | cons a t ih =>
    simp only [List.foldl_cons]
    rw [String.append_assoc, ih]

theorem strJoin_cons (a : String) (l : List String) :
    String.join (a :: l) = a ++ String.join l := by
  show (a :: l).foldl (· ++ ·) "" = a ++ l.foldl (· ++ ·) ""
  simp only [List.foldl_cons]
  rw [show ("" ++ a) = a ++ "" by rw [String.empty_append, String.append_empty],
    foldl_strAppend_shift]

/-- Folding `d ++ f i` over a list starting from `s0` appends the joined
pieces, as the string-building loops of `contourToPathData` do. -/
theorem foldl_seg_append (f : Nat → String) (l : List Nat) (s0 : String) :
    l.foldl (fun d i => d ++ f i) s0 = s0 ++ String.join (l.map f) := by
  induction l generalizing s0 with
  | nil => simp [String.join]
  | cons a t ih =>
    simp only [List.foldl_cons, List.map_cons]
    rw [ih, strJoin_cons, String.append_assoc]

theorem toString_str (s : String) : toString s = s := rfl

theorem append_spaceZ (R : String) : R ++ " Z" = (R ++ " ") ++ "Z" := by
  rw [String.append_assoc]; rfl

theorem wrapSub1 (i n : Nat) :
    (((i : Int) - 1 + (n : Int)) % (n : Int)).toNat = (i + n - 1) % n := by
  by_cases h : i + n = 0
  · have hi : i = 0 := by omega
    have hn : n = 0 := by omega
    subst hi; subst hn
    decide
  · have h2 : ((i : Int) - 1 + (n : Int)) = ((i + n - 1 : Nat) : Int) := by omega
    rw [h2, toNat_intCast_mod]

theorem wrapAdd0 (i n : Nat) :
    (((i : Int) + (n : Int)) % (n : Int)).toNat = i % n := by
  rw [Int.add_emod_self, toNat_intCast_mod]

theorem wrapAdd1 (i n : Nat) :
    (((i : Int) + 1 + (n : Int)) % (n : Int)).toNat = (i + 1) % n := by
  have h2 : ((i : Int) + 1 + (n : Int)) = ((i + 1 : Nat) : Int) + (n : Int) := by
    push_cast; ring
  rw [h2, Int.add_emod_self, toNat_intCast_mod]

theorem wrapAdd2 (i n : Nat) :
    (((i : Int) + 2 + (n : Int)) % (n : Int)).toNat = (i + 2) % n := by
  have h2 : ((i : Int) + 2 + (n : Int)) = ((i + 2 : Nat) : Int) + (n : Int) := by
    push_cast; ring
  rw [h2, Int.add_emod_self, toNat_intCast_mod]

theorem wrapZero (n : Nat) :
    (((0 : Int) + (n : Int)) % (n : Int)).toNat = 0 % n := by
  rw [Int.zero_add, Int.emod_self, Nat.zero_mod, Int.toNat_zero]

/-! ## Claim C9 -/

/-- **C9.** For every polygon with at least 3 points, `contourToPathData`
treats it as a closed Catmull-Rom spline with wrap-around neighbor
indexing and tension α = 0.5, converting each segment `(p0,p1,p2,p3)`
into a cubic Bézier with control points `p1 + (p2 − p0)·α/3` and
`p2 − (p3 − p1)·α/3`; for fewer than 3 points it falls back to a
straight-edged closed path. -/
theorem claim9_contourToPathData_catmullRom (contour : Contour) :
    (3 ≤ contour.length → contourToPathData contour = closedCatmullRomPath contour) ∧
    (contour ≠ [] → contour.length < 3 →
      contourToPathData contour = straightClosedPath contour) := by
  constructor
  · intro h3
    rcases contour with _ | ⟨p, _ | ⟨q, _ | ⟨r, ps'⟩⟩⟩
    · simp at h3
    · simp at h3
    · simp at h3
    · clear h3
      unfold contourToPathData closedCatmullRomPath
      rw [if_neg (by simp), if_neg (by simp)]
      simp only [foldl_seg_append, List.length_cons]
      simp only [wrapZero, wrapSub1, wrapAdd0, wrapAdd1, wrapAdd2]
  · intro hne hlt
    rcases contour with _ | ⟨p, _ | ⟨q, _ | ⟨r, ps'⟩⟩⟩
    · exact absurd rfl hne
    · simp only [contourToPathData, straightClosedPath, List.length_cons,
        List.length_nil]
      norm_num
      simp [String.join]
    · simp only [contourToPathData, straightClosedPath, List.length_cons,
        List.length_nil]
      norm_num
      simp [String.join, List.range', strJoin_cons, String.append_assoc]
    · simp only [List.length_cons] at hlt; omega

/-- A concrete square polygon. -/
def sqContour : Contour := [⟨0, 0⟩, ⟨2, 0⟩, ⟨2, 2⟩, ⟨0, 2⟩]

/-- A concrete one-point polygon. -/
def onePtContour : Contour := [⟨5, 6⟩]

theorem claim9_witness :
    (3 ≤ sqContour.length ∧
      contourToPathData sqContour = closedCatmullRomPath sqContour) ∧
    (onePtContour ≠ [] ∧ onePtContour.length < 3 ∧
      contourToPathData onePtContour = straightClosedPath onePtContour) :=
  ⟨⟨by decide, (claim9_contourToPathData_catmullRom sqContour).1 (by decide)⟩,
   ⟨by decide, by decide,
    (claim9_contourToPathData_catmullRom onePtContour).2 (by decide) (by decide)⟩⟩

/-! ## Claim C10 -/

/-- **C10.** For every non-empty contour, `contourToPathData` returns a
path string that begins with a move to the first point (`M x y`) and ends
with the close command `Z`; for the empty contour it returns the empty
string. -/
theorem claim10_contourToPathData_closed_path (contour : Contour) :
    (contour = [] → contourToPathData contour = "") ∧
    (∀ p ps, contour = p :: ps →
      (∃ rest, contourToPathData contour = s!"M {p.x} {p.y}" ++ rest) ∧
      (∃ pre, contourToPathData contour = pre ++ "Z")) := by
  constructor
  · rintro rfl; rfl
  · rintro p ps rfl
    match ps with
    | [] =>
      constructor
      · simp only [contourToPathData, List.length_cons, List.length_nil]
        norm_num
      · simp only [contourToPathData, List.length_cons, List.length_nil]
        norm_num
        rw [append_spaceZ]
        exact ⟨_, rfl⟩
    | [q] =>
      constructor
      · simp only [contourToPathData, List.length_cons, List.length_nil]
        norm_num
        simp only [List.getD, List.get?, Option.getD, List.range',
          List.foldl, toString_str, String.append_empty, String.empty_append,
          String.append_assoc]
        exact ⟨_, rfl⟩
      · simp only [contourToPathData, List.length_cons, List.length_nil]
        norm_num
        simp only [List.getD, List.get?, Option.getD, List.range',
          List.foldl, toString_str, String.append_empty, String.empty_append,
          ← String.append_assoc]
        rw [append_spaceZ]
        exact ⟨_, rfl⟩
    | q :: r :: ps' =>
      constructor
      · simp only [contourToPathData, List.length_cons]
        rw [if_neg (by omega), if_neg (by omega), foldl_seg_append]
        simp only [Int.zero_add, Int.emod_self, Int.toNat_zero,
          List.getD, List.get?, Option.getD, toString_str,
          String.append_empty, String.empty_append, String.append_assoc]
        exact ⟨_, rfl⟩
      · simp only [contourToPathData, List.length_cons]
        rw [if_neg (by omega), if_neg (by omega), foldl_seg_append, append_spaceZ]
        exact ⟨_, rfl⟩

/-- A concrete point for the C10 witness. -/
def pw : Pt := ⟨1, 2⟩

theorem claim10_witness :
    (∃ rest, contourToPathData [pw] = s!"M {pw.x} {pw.y}" ++ rest) ∧
    (∃ pre, contourToPathData [pw] = pre ++ "Z") :=
  (claim10_contourToPathData_closed_path [pw]).2 pw [] rfl

/-! ## Region extraction: structural lemmas -/

theorem extractRegions_go (cv : CVLib) (mmap : List (Int × Int)) (wm : Grid)
    (palette : List PaletteEntry) (minRegionSize : Nat) (l : List Int)
    (init : List Region) :
    l.foldl (fun regions label =>
        match buildRegion cv mmap palette wm minRegionSize label with
        | none => regions
        | some r => regions ++ [r]) init
      = init ++ l.filterMap (buildRegion cv mmap palette wm minRegionSize) := by
  induction l generalizing init with
  | nil => simp
  | cons a t ih =>
    simp only [List.foldl_cons, List.filterMap_cons]
    cases h : buildRegion cv mmap palette wm minRegionSize a with
    | none => simp only [h, ih]
    | some b =>
      simp only [h, ih, List.append_assoc, List.singleton_append]

theorem extractRegions_eq_filterMap (cv : CVLib) (mmap : List (Int × Int)) (wm : Grid)
    (palette : List PaletteEntry) (minRegionSize : Nat) :
    extractRegions cv mmap wm palette minRegionSize =
      (uniqueLabels wm).filterMap (buildRegion cv mmap palette wm minRegionSize) := by
  unfold extractRegions
  rw [extractRegions_go]
  simp

theorem mem_uniqueLabels (wm : Grid) (a : Int) :
    a ∈ uniqueLabels wm ↔ (0 < a ∧ a ∈ wm.pixels) := by
  unfold uniqueLabels
  generalize wm.pixels = l
  suffices h : ∀ (acc : List Int), a ∈ l.foldl
      (fun acc v => if 0 < v then (if v ∈ acc then acc else acc ++ [v]) else acc) acc ↔
      (a ∈ acc ∨ (0 < a ∧ a ∈ l)) by
    rw [h []]; simp
  induction l with
  | nil => intro acc; simp
  | cons v t ih =>
    intro acc
    simp only [List.foldl_cons]
    by_cases hv : 0 < v
    · rw [if_pos hv]
      by_cases hmem : v ∈ acc
      · rw [if_pos hmem, ih]
        have hva : a = v → a ∈ acc := fun hav => hav ▸ hmem
        simp only [List.mem_cons]
        tauto
      · rw [if_neg hmem, ih]
        have hva : a = v → 0 < a := fun hav => hav ▸ hv
        simp only [List.mem_append, List.mem_singleton, List.mem_cons]
        tauto
    · rw [if_neg hv, ih]
      have hva : a = v → ¬ 0 < a := fun hav => hav ▸ hv
      simp only [List.mem_cons]
      tauto

theorem buildRegion_some_basic {cv : CVLib} {mmap : List (Int × Int)}
    {palette : List PaletteEntry} {wm : Grid} {minRegionSize : Nat} {label : Int}
    {r : Region} (h : buildRegion cv mmap palette wm minRegionSize label = some r) :
    r.id = label ∧ minRegionSize ≤ regionPixelCount wm label := by
  unfold buildRegion at h
  by_cases hc : regionPixelCount wm label < minRegionSize
  · rw [if_pos hc] at h; cases h
  · rw [if_neg hc] at h
    rcases hfc : cv.findContours (regionMask wm label) with _ | ⟨c0, cs⟩ <;> rw [hfc] at h
    · cases h
    · cases h
      exact ⟨rfl, by omega⟩

theorem buildRegion_included {cv : CVLib} {mmap : List (Int × Int)}
    {palette : List PaletteEntry} {wm : Grid} {minRegionSize : Nat} {label : Int}
    (hge : minRegionSize ≤ regionPixelCount wm label)
    (hfc : cv.findContours (regionMask wm label) ≠ []) :
    ∃ r, buildRegion cv mmap palette wm minRegionSize label = some r ∧ r.id = label := by
  unfold buildRegion
  rw [if_neg (by omega)]
  rcases h : cv.findContours (regionMask wm label) with _ | ⟨c0, cs⟩
  · exact absurd h hfc
  · exact ⟨_, rfl, rfl⟩

/-! ## Claim C2 -/

/-- **C2.** A watershed label contributes a region only if its pixel
count is at least `minRegionSize`; a candidate with pixel count
`minRegionSize − 1` is excluded and one with pixel count exactly
`minRegionSize` is included (when contour tracing finds its mask's
contour), and the pixels of a dropped label belong to no returned
region's pixel set. -/
theorem claim2_minRegionSize_boundary (cv : CVLib) (mmap : List (Int × Int))
    (wm : Grid) (palette : List PaletteEntry) (minRegionSize : Nat) :
    (∀ r ∈ extractRegions cv mmap wm palette minRegionSize,
        minRegionSize ≤ regionPixelCount wm r.id) ∧
    (∀ label, label ∈ uniqueLabels wm →
        regionPixelCount wm label = minRegionSize →
        cv.findContours (regionMask wm label) ≠ [] →
        ∃ r ∈ extractRegions cv mmap wm palette minRegionSize, r.id = label) ∧
    (∀ label, regionPixelCount wm label + 1 = minRegionSize →
        ∀ r ∈ extractRegions cv mmap wm palette minRegionSize, r.id ≠ label) ∧
    (∀ label, regionPixelCount wm label < minRegionSize →
        ∀ r ∈ extractRegions cv mmap wm palette minRegionSize,
          ∀ i, wm.get i = label → wm.get i ≠ r.id) := by
  have part1 : ∀ r ∈ extractRegions cv mmap wm palette minRegionSize,
      minRegionSize ≤ regionPixelCount wm r.id := by
    intro r hr
    rw [extractRegions_eq_filterMap] at hr
    obtain ⟨label, hl, hb⟩ := List.mem_filterMap.mp hr
    obtain ⟨hid, hge⟩ := buildRegion_some_basic hb
    rw [hid]
    exact hge
  refine ⟨part1, ?_, ?_, ?_⟩
  · intro label hl hcount hfc
    obtain ⟨r, hb, hid⟩ := buildRegion_included (le_of_eq hcount.symm) hfc
    exact ⟨r, by
      rw [extractRegions_eq_filterMap]
      exact List.mem_filterMap.mpr ⟨label, hl, hb⟩, hid⟩
  · intro label heq r hr hcontra
    have h1 := part1 r hr
    rw [hcontra] at h1
    omega
  · intro label hlt r hr i hi he
    have h1 := part1 r hr
    rw [hi] at he
    rw [← he] at h1
    omega

/-- A concrete 3×3 watershed map: label 1 covers 4 pixels, label 2 covers
3 pixels, two boundary/unknown pixels. -/
def wm3 : Grid := ⟨3, 3, [1, 1, 1, 1, 2, 2, 2, 0, 0]⟩

/-- A concrete palette entry. -/
def palA : PaletteEntry := ⟨1, ⟨10, 10, 10⟩, "#0a0a0a", "Black"⟩

/-- A second concrete palette entry. -/
def palB : PaletteEntry := ⟨2, ⟨200, 10, 10⟩, "#c80a0a", "Red"⟩

theorem claim2_witness :
    (∃ r ∈ extractRegions cvI [] wm3 [palA] 4, r.id = 1) ∧
    ¬ (∃ r ∈ extractRegions cvI [] wm3 [palA] 4, r.id = 2) :=
  ⟨(claim2_minRegionSize_boundary cvI [] wm3 [palA] 4).2.1 1
      (by decide) (by decide) (by decide),
   fun ⟨r, hr, hid⟩ => (claim2_minRegionSize_boundary cvI [] wm3 [palA] 4).2.2.1 2
      (by decide) r hr hid⟩

/-! ## Claim C8 -/

/-- **C8.** When no label survives the size filter, `extractRegions`
returns the empty list normally (it is a total function, no exception
path exists for this case) and `App.generate` treats the empty list as a
soft outcome (warning toast and early return), not a crash. -/
theorem claim8_no_regions_soft_outcome (cv : CVLib) (mmap : List (Int × Int))
    (wm : Grid) (palette : List PaletteEntry) (minRegionSize : Nat)
    (h : ∀ label ∈ uniqueLabels wm, regionPixelCount wm label < minRegionSize) :
    extractRegions cv mmap wm palette minRegionSize = [] ∧
    generateHandleRegions (extractRegions cv mmap wm palette minRegionSize) =
      GenerateOutcome.noRegionsWarning := by
  have he : extractRegions cv mmap wm palette minRegionSize = [] := by
    rw [extractRegions_eq_filterMap]
    refine List.filterMap_eq_nil_iff.mpr ?_
    intro label hl
    unfold buildRegion
    rw [if_pos (h label hl)]
  exact ⟨he, by rw [he]; rfl⟩

theorem claim8_witness :
    extractRegions cvI [] wm3 [palA] 100 = [] ∧
    generateHandleRegions (extractRegions cvI [] wm3 [palA] 100) =
      GenerateOutcome.noRegionsWarning :=
  claim8_no_regions_soft_outcome cvI [] wm3 [palA] 100 (by decide)

/-- Invariant of the color loop of `createMarkers`. -/
def MarkerInv (K : Nat) (st : MarkerState) : Prop :=
  (∀ p ∈ st.markerToColor, 1 ≤ p.1 ∧ p.1 < st.nextLabel ∧ 1 ≤ p.2 ∧ p.2 ≤ (K : Int))
  ∧ 1 ≤ st.nextLabel ∧ (st.markerToColor.map Prod.fst).Nodup

theorem markerInv_step (cv : CVLib) (labels : List Int) (w h e K : Nat)
    (hcc : ∀ m, 1 ≤ (cv.connectedComponents8 m).num)
    (st : MarkerState) (c : Nat) (hc : c < K) (hst : MarkerInv K st) :
    MarkerInv K (createMarkersStep cv labels w h e st c) := by
  obtain ⟨hb, hnl, hnd⟩ := hst
  simp only [createMarkersStep, MarkerInv]
  set mask := if 0 < e then cv.erode (colorMask labels w h c) (MORPH_ELLIPSE, e * 2 + 1)
    else colorMask labels w h c with hmask
  have hnum : 1 ≤ (cv.connectedComponents8 mask).num := hcc mask
  refine ⟨?_, ?_, ?_⟩
  · intro p hp
    simp only [List.mem_append] at hp
    rcases hp with hold | hnew
    · obtain ⟨h1, h2, h3, h4⟩ := hb p hold
      refine ⟨h1, by omega, h3, h4⟩
    · obtain ⟨comp, hcomp, rfl⟩ := List.mem_map.mp hnew
      rw [List.mem_range'_1] at hcomp
      refine ⟨by omega, by omega, by omega, by omega⟩
  · omega
  · rw [List.map_append, List.nodup_append]
    have hnr : (List.range' 1 ((cv.connectedComponents8 mask).num - 1)).Nodup :=
      List.nodup_range' 1 ((cv.connectedComponents8 mask).num - 1)
    refine ⟨hnd, ?_, ?_⟩
    · rw [List.map_map]
      refine List.Nodup.map ?_ hnr
      intro a b hab
      simp only [Function.comp] at hab
      omega
    · intro k hk1 hk2
      obtain ⟨p, hp, rfl⟩ := List.mem_map.mp hk1
      obtain ⟨h1, h2, _, _⟩ := hb p hp
      obtain ⟨q, hq, hceq⟩ := List.mem_map.mp hk2
      obtain ⟨comp, hcomp, rfl⟩ := List.mem_map.mp hq
      rw [List.mem_range'_1] at hcomp
      dsimp only at hceq
      omega

theorem markerInv_foldl (cv : CVLib) (labels : List Int) (w h e K : Nat)
    (hcc : ∀ m, 1 ≤ (cv.connectedComponents8 m).num)
    (cols : List Nat) (hcols : ∀ c ∈ cols, c < K) (st : MarkerState)
    (hst : MarkerInv K st) :
    MarkerInv K (cols.foldl (createMarkersStep cv labels w h e) st) := by
  induction cols generalizing st with
  | nil => exact hst
  | cons c t ih =>
    simp only [List.foldl_cons]
    exact ih (fun c' hc' => hcols c' (List.mem_cons_of_mem _ hc'))
      _ (markerInv_step cv labels w h e K hcc st c (hcols c (List.mem_cons_self _ _)) hst)

theorem createMarkers_map_bounds (cv : CVLib) (labels : List Int) (w h K : Nat)
    (c : String) (hcc : ∀ m, 1 ≤ (cv.connectedComponents8 m).num) :
    (∀ p ∈ (createMarkers cv labels w h K c).2,
        1 ≤ p.1 ∧ 1 ≤ p.2 ∧ p.2 ≤ (K : Int)) ∧
    ((createMarkers cv labels w h K c).2.map Prod.fst).Nodup := by
  have hinv := markerInv_foldl cv labels w h (erodeSizes c) K hcc (List.range K)
    (fun c' hc' => List.mem_range.mp hc') ⟨Grid.zeros h w, [], 1⟩
    ⟨fun p hp => absurd hp (List.not_mem_nil p), by norm_num, List.nodup_nil⟩
  obtain ⟨hb, _, hnd⟩ := hinv
  exact ⟨fun p hp => ⟨(hb p hp).1, (hb p hp).2.2.1, (hb p hp).2.2.2⟩, hnd⟩

theorem lookupMap_mem {m : List (Int × Int)} {k v : Int}
    (h : lookupMap m k = some v) : (k, v) ∈ m := by
  unfold lookupMap at h
  cases hf : m.find? (fun p => p.1 = k) with
  | none => rw [hf] at h; cases h
  | some pr =>
    rw [hf] at h
    cases h
    have hm := List.mem_of_find?_eq_some hf
    have hp := List.find?_some hf
    have hk : pr.1 = k := by simpa using hp
    rw [← hk]
    simpa using hm

theorem buildRegion_colorId {cv : CVLib} {mmap : List (Int × Int)}
    {palette : List PaletteEntry} {wm : Grid} {minRegionSize : Nat} {label : Int}
    {r : Region} {v : Int}
    (h : buildRegion cv mmap palette wm minRegionSize label = some r)
    (hv : lookupMap mmap label = some v) (hv1 : 1 ≤ v)
    (hv2 : v ≤ (palette.length : Int)) :
    r.colorId = v := by
  unfold buildRegion at h
  by_cases hc : regionPixelCount wm label < minRegionSize
  · rw [if_pos hc] at h; cases h
  · rw [if_neg hc] at h
    rcases hfc : cv.findContours (regionMask wm label) with _ | ⟨c0, cs⟩ <;> rw [hfc] at h
    · cases h
    · rw [hv] at h
      dsimp only at h
      rw [if_neg (by omega : ¬ v = 0)] at h
      rw [if_neg (by omega : ¬ (v < 1 ∨ v > (palette.length : Int)))] at h
      cases h
      rfl

/-- **C1.** Every region returned by the pipeline has `colorId ∈ [1, K]`
and its `colorId` is exactly the 1-based palette index recorded for the
region's watershed label in the marker-to-color map built by
`createMarkers` in the same run. -/
theorem claim1_colorId_traceable (cv : CVLib) (labels : List Int) (w h K : Nat) (c : String)
    (quantized : ImageRGB) (palette : List PaletteEntry) (minRegionSize : Nat)
    (hK : palette.length = K)
    (hcc : ∀ m, 1 ≤ (cv.connectedComponents8 m).num)
    (hws : ∀ v ∈ (applyWatershed cv quantized (createMarkers cv labels w h K c).1).pixels,
        0 < v → (lookupMap (createMarkers cv labels w h K c).2 v).isSome) :
    ∀ r ∈ runPipelineRegions cv labels w h K c quantized palette minRegionSize,
      1 ≤ r.colorId ∧ r.colorId ≤ (K : Int) ∧
      lookupMap (createMarkers cv labels w h K c).2 r.id = some r.colorId := by
  intro r hr
  have hrun : runPipelineRegions cv labels w h K c quantized palette minRegionSize =
      extractRegions cv (createMarkers cv labels w h K c).2
        (applyWatershed cv quantized (createMarkers cv labels w h K c).1)
        palette minRegionSize := rfl
  rw [hrun, extractRegions_eq_filterMap] at hr
  obtain ⟨label, hl, hb⟩ := List.mem_filterMap.mp hr
  rw [mem_uniqueLabels] at hl
  obtain ⟨hpos, hmem⟩ := hl
  obtain ⟨hid, _⟩ := buildRegion_some_basic hb
  obtain ⟨v, hv⟩ := Option.isSome_iff_exists.mp (hws label hmem hpos)
  have hmemv := lookupMap_mem hv
  obtain ⟨_, hv1, hv2⟩ := (createMarkers_map_bounds cv labels w h K c hcc).1 _ hmemv
  have hcid := buildRegion_colorId hb hv hv1 (by omega)
  refine ⟨by omega, by omega, ?_⟩
  rw [hid, hcid]
  exact hv

def labels0 : List Int := [0, 0, 0, 0]
def imgQ : ImageRGB := ⟨2, 2, [⟨10, 10, 10⟩, ⟨10, 10, 10⟩, ⟨10, 10, 10⟩, ⟨10, 10, 10⟩]⟩

/-- The single region the concrete pipeline run produces. -/
def r0 : Region :=
  (runPipelineRegions cvI labels0 2 2 1 "high" imgQ [palA] 1).getD 0
    ⟨0, [], 0, 0, 0, 0, none⟩

theorem claim1_colorId_traceable_witness :
    1 ≤ r0.colorId ∧ r0.colorId ≤ ((1 : Nat) : Int) ∧
    lookupMap (createMarkers cvI labels0 2 2 1 "high").2 r0.id = some r0.colorId :=
  claim1_colorId_traceable cvI labels0 2 2 1 "high" imgQ [palA] 1 (by decide)
    (fun m => by
      simp only [cvI]
      split <;> norm_num)
    (by decide)
    r0 (List.mem_cons_self r0 [])

theorem erodeSizes_pos (c : String) : 0 < erodeSizes c := by
  unfold erodeSizes
  split_ifs <;> norm_num

theorem markerStateAfter_succ (cv : CVLib) (labels : List Int) (w h : Nat)
    (c : String) (i : Nat) :
    markerStateAfter cv labels w h c (i + 1) =
      createMarkersStep cv labels w h (erodeSizes c)
        (markerStateAfter cv labels w h c i) i := by
  unfold markerStateAfter
  rw [List.range_succ, List.foldl_append, List.foldl_cons, List.foldl_nil]

/-- **C3.** For each color index, `createMarkers` builds the binary mask
of pixels whose cluster index equals that color, erodes it with the
elliptical structuring element of radius 5/3/2/1 px for complexity
low/medium/high/extreme (kernel side `2·r+1`), runs 8-connected component
labeling on the eroded mask, and assigns each component a globally unique
positive marker id while recording `id → 1-based color index` in the
marker-to-color map. -/
theorem claim3_createMarkers_perColor (cv : CVLib) (labels : List Int) (w h K : Nat)
    (c : String) (hcc : ∀ m, 1 ≤ (cv.connectedComponents8 m).num) :
    (erodeSizes "low" = 5 ∧ erodeSizes "medium" = 3 ∧
      erodeSizes "high" = 2 ∧ erodeSizes "extreme" = 1) ∧
    createMarkers cv labels w h K c =
      ((markerStateAfter cv labels w h c K).markers,
       (markerStateAfter cv labels w h c K).markerToColor) ∧
    (∀ i, markerStateAfter cv labels w h c (i + 1) =
        createMarkersStep cv labels w h (erodeSizes c)
          (markerStateAfter cv labels w h c i) i) ∧
    (∀ i, (markerStateAfter cv labels w h c (i + 1)).markerToColor =
        (markerStateAfter cv labels w h c i).markerToColor ++
          (List.range' 1 ((cv.connectedComponents8
              (cv.erode (colorMask labels w h i)
                (MORPH_ELLIPSE, erodeSizes c * 2 + 1))).num - 1)).map
            (fun (comp : Nat) =>
              ((markerStateAfter cv labels w h c i).nextLabel + (comp : Int) - 1,
               ((i : Int) + 1)))) ∧
    (∀ p ∈ (createMarkers cv labels w h K c).2,
        1 ≤ p.1 ∧ 1 ≤ p.2 ∧ p.2 ≤ (K : Int)) ∧
    ((createMarkers cv labels w h K c).2.map Prod.fst).Nodup := by
  refine ⟨⟨by decide, by decide, by decide, by decide⟩, rfl,
    markerStateAfter_succ cv labels w h c, ?_,
    (createMarkers_map_bounds cv labels w h K c hcc).1,
    (createMarkers_map_bounds cv labels w h K c hcc).2⟩
  intro i
  rw [markerStateAfter_succ]
  simp only [createMarkersStep]
  rw [if_pos (erodeSizes_pos c)]

theorem claim3_witness :
    (erodeSizes "low" = 5 ∧ erodeSizes "medium" = 3 ∧
      erodeSizes "high" = 2 ∧ erodeSizes "extreme" = 1) ∧
    ((createMarkers cvI labels0 2 2 1 "high").2.map Prod.fst).Nodup ∧
    ¬ (∃ p ∈ (createMarkers cvI labels0 2 2 1 "high").2,
        ¬ (1 ≤ p.1 ∧ 1 ≤ p.2 ∧ p.2 ≤ ((1 : Nat) : Int))) :=
  ⟨(claim3_createMarkers_perColor cvI labels0 2 2 1 "high"
      (fun m => by simp only [cvI]; split <;> norm_num)).1,
   (claim3_createMarkers_perColor cvI labels0 2 2 1 "high"
      (fun m => by simp only [cvI]; split <;> norm_num)).2.2.2.2.2,
   fun ⟨p, hp, hnot⟩ => hnot
     ((claim3_createMarkers_perColor cvI labels0 2 2 1 "high"
        (fun m => by simp only [cvI]; split <;> norm_num)).2.2.2.2.1 p hp)⟩

/-- Spec-side: the pixel indices assigned to cluster `j` (the "pixels
assigned to cluster i" of spec §4.1). -/
def clusterPixelIndices (labels : List Int) (n : Nat) (j : Nat) : List Nat :=
  (List.range n).filter fun idx => labels.getD idx 0 = (j : Int)

theorem colorSumsFold_go (labels : List Int) (img : ImageRGB) (K : Nat)
    (l : List Nat) (s : Nat → ColorSum) (j : Nat) (hj : j < K) :
    (l.foldl
      (fun sums i =>
        let label := labels.getD i 0
        if 0 ≤ label ∧ label < (K : Int) then
          let p := img.pix.getD i ⟨0, 0, 0⟩
          fun j => if j = label.toNat then
              ⟨(sums j).r + p.r, (sums j).g + p.g, (sums j).b + p.b, (sums j).count + 1⟩
            else sums j
        else sums) s) j =
      ⟨(s j).r + ((l.filter fun idx => labels.getD idx 0 = (j : Int)).map
          (fun idx => (img.pix.getD idx ⟨0, 0, 0⟩).r)).sum,
       (s j).g + ((l.filter fun idx => labels.getD idx 0 = (j : Int)).map
          (fun idx => (img.pix.getD idx ⟨0, 0, 0⟩).g)).sum,
       (s j).b + ((l.filter fun idx => labels.getD idx 0 = (j : Int)).map
          (fun idx => (img.pix.getD idx ⟨0, 0, 0⟩).b)).sum,
       (s j).count + (l.filter fun idx => labels.getD idx 0 = (j : Int)).length⟩ := by
  induction l generalizing s with
  | nil => simp
  | cons idx t ih =>
    simp only [List.foldl_cons, List.filter_cons]
    by_cases hin : 0 ≤ labels.getD idx 0 ∧ labels.getD idx 0 < (K : Int)
    · rw [if_pos hin]
      by_cases heq : labels.getD idx 0 = (j : Int)
      · have htn : (labels.getD idx 0).toNat = j := by omega
        rw [if_pos (decide_eq_true heq)]
        rw [ih _]
        simp only [htn]
        simp only [eq_self_iff_true, if_true, List.map_cons, List.sum_cons,
          List.length_cons]
        rw [ColorSum.mk.injEq]
        refine ⟨by omega, by omega, by omega, by omega⟩
      · have hne : ¬ j = (labels.getD idx 0).toNat := by omega
        rw [if_neg (by simpa [List.getD] using heq)]
        rw [ih _]
        simp only [if_neg hne]
    · rw [if_neg hin]
      have heq : ¬ labels.getD idx 0 = (j : Int) := fun hcon => hin ⟨by omega, by omega⟩
      rw [if_neg (by simpa [List.getD] using heq)]
      exact ih _

theorem colorSumsFold_eq (labels : List Int) (img : ImageRGB) (K : Nat) (j : Nat)
    (hj : j < K) :
    colorSumsFold labels img K j =
      ⟨((clusterPixelIndices labels (img.height * img.width) j).map
          (fun idx => (img.pix.getD idx ⟨0, 0, 0⟩).r)).sum,
       ((clusterPixelIndices labels (img.height * img.width) j).map
          (fun idx => (img.pix.getD idx ⟨0, 0, 0⟩).g)).sum,
       ((clusterPixelIndices labels (img.height * img.width) j).map
          (fun idx => (img.pix.getD idx ⟨0, 0, 0⟩).b)).sum,
       (clusterPixelIndices labels (img.height * img.width) j).length⟩ := by
  unfold colorSumsFold clusterPixelIndices
  rw [colorSumsFold_go labels img K _ _ j hj]
  simp
/-- **C5.** For every cluster with at least one assigned pixel, the
palette entry produced by `quantize` has `rgb` equal to the per-channel
rounded average of the original RGB values of the pixels assigned to that
cluster; the whole palette is a function of the cluster assignment and
the original RGB image only, not of the Lab-space centroids. -/
theorem claim5_palette_average_original_rgb (lib : QuantLib) (img : ImageRGBA) (K : Nat) (res : QuantResult)
    (hq : quantize true lib img K = Except.ok res) :
    res.palette = quantizePalette res.labels (rgba2rgb img) K ∧
    (∀ i, i < K →
      0 < (clusterPixelIndices res.labels
          ((rgba2rgb img).height * (rgba2rgb img).width) i).length →
      (res.palette[i]?).map PaletteEntry.rgb = some
        ⟨(jsRound ((((clusterPixelIndices res.labels
              ((rgba2rgb img).height * (rgba2rgb img).width) i).map
              (fun idx => ((rgba2rgb img).pix.getD idx ⟨0, 0, 0⟩).r)).sum : ℚ) /
            ((clusterPixelIndices res.labels
              ((rgba2rgb img).height * (rgba2rgb img).width) i).length : ℚ))).toNat,
         (jsRound ((((clusterPixelIndices res.labels
              ((rgba2rgb img).height * (rgba2rgb img).width) i).map
              (fun idx => ((rgba2rgb img).pix.getD idx ⟨0, 0, 0⟩).g)).sum : ℚ) /
            ((clusterPixelIndices res.labels
              ((rgba2rgb img).height * (rgba2rgb img).width) i).length : ℚ))).toNat,
         (jsRound ((((clusterPixelIndices res.labels
              ((rgba2rgb img).height * (rgba2rgb img).width) i).map
              (fun idx => ((rgba2rgb img).pix.getD idx ⟨0, 0, 0⟩).b)).sum : ℚ) /
            ((clusterPixelIndices res.labels
              ((rgba2rgb img).height * (rgba2rgb img).width) i).length : ℚ))).toNat⟩) := by
  have hbody : res.palette = quantizePalette res.labels (rgba2rgb img) K := by
    unfold quantize at hq
    rw [if_neg (by simp)] at hq
    dsimp only at hq
    rcases hk : lib.kmeans (lib.rgb2lab (rgba2rgb img)) K with u | labs <;>
      rw [hk] at hq
    · cases hq
    · cases hq
      rfl
  refine ⟨hbody, ?_⟩
  intro i hi hcount
  rw [hbody]
  unfold quantizePalette
  rw [List.getElem?_map, List.getElem?_range hi]
  simp only [Option.map_some']
  rw [colorSumsFold_eq res.labels (rgba2rgb img) K i hi]
  dsimp only
  rw [if_pos hcount]
/-- A concrete 2×1 image for the C5 witness. -/
def img2 : ImageRGBA := ⟨2, 1, [⟨10, 20, 30, 255⟩, ⟨20, 40, 50, 255⟩]⟩

/-- The quantizer result on `img2` with both pixels in cluster 0. -/
def quantWitnessRes : QuantResult :=
  ⟨buildQuantized [0, 0] (quantizePalette [0, 0] (rgba2rgb img2) 1) 2 1,
   quantizePalette [0, 0] (rgba2rgb img2) 1, [0, 0]⟩

theorem claim5_witness :
    quantWitnessRes.palette =
      quantizePalette quantWitnessRes.labels (rgba2rgb img2) 1 ∧
    (quantWitnessRes.palette[0]?).map PaletteEntry.rgb = some
      ⟨(jsRound ((((clusterPixelIndices quantWitnessRes.labels
            ((rgba2rgb img2).height * (rgba2rgb img2).width) 0).map
            (fun idx => ((rgba2rgb img2).pix.getD idx ⟨0, 0, 0⟩).r)).sum : ℚ) /
          ((clusterPixelIndices quantWitnessRes.labels
            ((rgba2rgb img2).height * (rgba2rgb img2).width) 0).length : ℚ))).toNat,
       (jsRound ((((clusterPixelIndices quantWitnessRes.labels
            ((rgba2rgb img2).height * (rgba2rgb img2).width) 0).map
            (fun idx => ((rgba2rgb img2).pix.getD idx ⟨0, 0, 0⟩).g)).sum : ℚ) /
          ((clusterPixelIndices quantWitnessRes.labels
            ((rgba2rgb img2).height * (rgba2rgb img2).width) 0).length : ℚ))).toNat,
       (jsRound ((((clusterPixelIndices quantWitnessRes.labels
            ((rgba2rgb img2).height * (rgba2rgb img2).width) 0).map
            (fun idx => ((rgba2rgb img2).pix.getD idx ⟨0, 0, 0⟩).b)).sum : ℚ) /
          ((clusterPixelIndices quantWitnessRes.labels
            ((rgba2rgb img2).height * (rgba2rgb img2).width) 0).length : ℚ))).toNat⟩ :=
  ⟨(claim5_palette_average_original_rgb (quantLibOk [0, 0]) img2 1
      quantWitnessRes rfl).1,
   (claim5_palette_average_original_rgb (quantLibOk [0, 0]) img2 1
      quantWitnessRes rfl).2 0 (by decide) (by decide)⟩

def wm1 : Grid := ⟨2, 2, [1, 1, 1, 1]⟩

/-- **C4 (code evaluation).** The claim that the marker-to-color map is
passed only as an explicit value is false of the code: `createMarkers`
mutates the processor object (it stores the map in `this._markerToColor`,
line 268), and the result of `extractRegions` depends on that hidden
instance field (line 367) — two processor states differing only in
`_markerToColor` give different region lists for identical explicit
arguments. -/
theorem claim4_markerToColor_hidden_state :
    (createMarkersS cvI ⟨none⟩ labels0 2 2 1 "high").2 ≠ (⟨none⟩ : ProcessorState) ∧
    extractRegionsS cvI ⟨some [(1, 1)]⟩ wm1 [palA, palB] 1 ≠
      extractRegionsS cvI ⟨some [(1, 2)]⟩ wm1 [palA, palB] 1 := by
  refine ⟨by decide, fun h => ?_⟩
  have h2 := congrArg (List.map Region.colorId) h
  revert h2
  decide

/-- **C6 (counterexample).** On a run whose marker construction produces
zero seeds, the pipeline does not raise any error: the marker stage
returns normally and watershed is attempted on the all-zero marker map,
while the spec-side gate (`specSeedGate`, spec §4.3/§7) would have
aborted with `NoMarkersError`. -/
theorem claim6_counterexample_no_noMarkersError :
    seedCount (createMarkers cvZero labels0 2 2 1 "high").1 = 0 ∧
    processMarkersWatershed cvZero ⟨none⟩ labels0 imgQ 2 2 1 "high" =
      Except.ok ((createMarkers cvZero labels0 2 2 1 "high").1, ⟨some []⟩) ∧
    specSeedGate (createMarkers cvZero labels0 2 2 1 "high").1 =
      Except.error SpecPipelineErr.noMarkersError :=
  ⟨by decide, rfl, rfl⟩

/-- **C6 (amended).** If marker construction produces zero seeds, no
error is raised: the marker/watershed stage returns successfully, with
`cv.watershed` applied to the seedless marker map (there is no
`NoMarkersError` in the code). -/
theorem claim6_amended_watershed_on_seedless (cv : CVLib) (st : ProcessorState)
    (labels : List Int) (quantized : ImageRGB) (w h K : Nat) (c : String)
    (_hzero : seedCount (createMarkers cv labels w h K c).1 = 0) :
    processMarkersWatershed cv st labels quantized w h K c =
      Except.ok (cv.watershed quantized (createMarkers cv labels w h K c).1,
        ⟨some (createMarkers cv labels w h K c).2⟩) := rfl

theorem claim6_witness :
    seedCount (createMarkers cvZero labels0 2 2 1 "high").1 = 0 ∧
    processMarkersWatershed cvZero ⟨none⟩ labels0 imgQ 2 2 1 "high" =
      Except.ok (cvZero.watershed imgQ (createMarkers cvZero labels0 2 2 1 "high").1,
        ⟨some (createMarkers cvZero labels0 2 2 1 "high").2⟩) :=
  ⟨by decide,
   claim6_amended_watershed_on_seedless cvZero ⟨none⟩ labels0 imgQ 2 2 1 "high" (by decide)⟩

def imgOne : ImageRGBA := ⟨1, 1, [⟨5, 5, 5, 255⟩]⟩

def imgEmpty : ImageRGBA := ⟨0, 0, []⟩

/-- **C7 (counterexample).** `quantize` performs no validation of
`numColors` or of the image size: with `K = 0` on a 1×1 image, and with
`K = 6` on an empty image, it returns a result (when the underlying
K-means call succeeds) instead of failing, while the spec-side gate
(`specQuantGate`, spec §4.1/§7) demands an `InvalidParameter` failure. -/
theorem claim7_counterexample_no_invalidParameter :
    (specQuantGate imgOne 0 = Except.error SpecPipelineErr.invalidParameter ∧
      (quantize true (quantLibOk []) imgOne 0).isOk = true) ∧
    (specQuantGate imgEmpty 6 = Except.error SpecPipelineErr.invalidParameter ∧
      (quantize true (quantLibOk []) imgEmpty 6).isOk = true) :=
  ⟨⟨rfl, rfl⟩, ⟨rfl, rfl⟩⟩

/-- **C7 (amended).** `quantize` never fails with a parameter-validation
error: its only failure mode (once OpenCV is loaded) is the generic
wrapped K-means failure, and when the K-means call throws — as OpenCV's
does for `K ≤ 0` or an empty sample matrix — `quantize` fails with
`kmeansFailed`, not with any `InvalidParameter`. -/
theorem claim7_amended_no_validation (lib : QuantLib) (img : ImageRGBA) (K : Nat) :
    (∀ e, quantize true lib img K = Except.error e → e = QuantError.kmeansFailed) ∧
    (∀ u, lib.kmeans (lib.rgb2lab (rgba2rgb img)) K = Except.error u →
      quantize true lib img K = Except.error QuantError.kmeansFailed) := by
  constructor
  · intro e he
    unfold quantize at he
    rw [if_neg (by simp)] at he
    dsimp only at he
    rcases hk : lib.kmeans (lib.rgb2lab (rgba2rgb img)) K with u | labs <;> rw [hk] at he
    · cases he; rfl
    · cases he
  · intro u hu
    unfold quantize
    rw [if_neg (by simp)]
    dsimp only
    rw [hu]

theorem claim7_witness :
    quantize true quantLibErr imgOne 0 = Except.error QuantError.kmeansFailed :=
  (claim7_amended_no_validation quantLibErr imgOne 0).2 () rfl

end PBN
